import Mathlib

/-!
Shallow embedding of the real-time audio session orchestration layer of
bevy-tutti (src/systems.rs, src/midi/systems.rs, src/components.rs).

Conventions:
- `f32`/`f64` scalars are modelled as exact rationals (`ℚ`), except in the
  spatial-geometry section where the trigonometric functions force `ℝ`.
- Bevy entities are modelled as records of `Option`-valued components;
  `Commands` insert/remove become functional record updates, and a system's
  per-entity loop body becomes a function from (graph, entity) to
  (graph, entity).  An entity despawn is modelled by returning `none`.
- The tutti engine is external: its fallible entry points (plugin builders,
  recording start/stop, crash flags) are oracle parameters, and its node
  graph is modelled as an association list of node ids to unit kinds.
-/

/-- The kind of unit stored at a node of tutti's audio graph.  The typed
lookup `node_ref_typed::<SamplerUnit>` succeeds exactly on `samplerU`
(a `TimeStretchUnit` wrapping a sampler is a different node type). -/
inductive GraphUnit where
  | samplerU (gain speed : ℚ) (looping playing : Bool)
  | timeStretchU (gain speed : ℚ) (looping : Bool) (stretchFactor pitchCents : ℚ) (playing : Bool)
  | pluginU
  | pannerU
deriving DecidableEq

/-- tutti's node graph: an association list of node ids to units plus the
next fresh id.  `add` models `net.add(..)` (the `.master()` output wiring is
not tracked), `remove` models `net.remove`, `contains` models
`net.contains`, `find` backs the typed node lookups. -/
structure AudioGraph where
  nodes : List (ℕ × GraphUnit)
  nextId : ℕ
deriving DecidableEq

def AudioGraph.add (g : AudioGraph) (u : GraphUnit) : AudioGraph × ℕ :=
  ({ nodes := g.nodes ++ [(g.nextId, u)], nextId := g.nextId + 1 }, g.nextId)

def AudioGraph.contains (g : AudioGraph) (id : ℕ) : Bool :=
  g.nodes.any (fun p => p.1 == id)

def AudioGraph.find (g : AudioGraph) (id : ℕ) : Option GraphUnit :=
  (g.nodes.find? (fun p => p.1 == id)).map (fun p => p.2)

def AudioGraph.remove (g : AudioGraph) (id : ℕ) : AudioGraph :=
  { g with nodes := g.nodes.filter (fun p => ! (p.1 == id)) }

/-- The guarded removal `graph_mut(|net| if net.contains(id) { net.remove(id) })`
used by `audio_cleanup_system` and `plugin_crash_detect_system`. -/
def AudioGraph.removeIfContains (g : AudioGraph) (id : ℕ) : AudioGraph :=
  if g.contains id then g.remove id else g

/-- `AudioEmitter` component (components.rs): a reference to a live graph node. -/
structure AudioEmitterC where
  node_id : ℕ
deriving DecidableEq

/-- `AudioPlaybackState` component (components.rs). -/
inductive AudioPlaybackStateC where
  | Stopped
  | Playing
  | Finished
deriving DecidableEq

/-- `PlayAudio` trigger component (components.rs); the asset handle is an
opaque asset id. -/
structure PlayAudioC where
  assetId : ℕ
  looping : Bool
  gain : ℚ
  speed : ℚ
  auto_despawn : Bool
deriving DecidableEq

/-- `TimeStretch` companion component (components.rs). -/
structure TimeStretchC where
  stretch_factor : ℚ
  pitch_cents : ℚ
deriving DecidableEq

/-- `TimeStretchControl` component: the values held by the two shared
lock-free atomics at the moment of insertion. -/
structure TimeStretchControlC where
  stretch_factor : ℚ
  pitch_cents : ℚ
deriving DecidableEq

/-- A session object (Bevy entity) as seen by the sampler systems.
`addedTick` is the Bevy change tick at which `PlayAudio` was inserted; it
drives the `Added<PlayAudio>` query filter. -/
structure PlaybackEntity where
  playAudio : Option PlayAudioC
  addedTick : ℕ
  timeStretch : Option TimeStretchC
  audioEmitter : Option AudioEmitterC
  tsControl : Option TimeStretchControlC
  playbackState : AudioPlaybackStateC
  despawnOnFinish : Bool
deriving DecidableEq

/-- Per-entity loop body of `audio_playback_system` (systems.rs:27-83).
`assets` tells whether the referenced `TuttiAudioSource` has finished
decoding.  If it has, the (possibly time-stretch wrapped) sampler is added
to the graph and `PlayAudio` is replaced by `AudioEmitter` + `Playing`,
with the control handle and despawn marker inserted as requested.  If it
has not, the code logs a warning and `continue`s, leaving the entity
untouched (deferral). -/
def audio_playback_entity (assets : ℕ → Bool) (g : AudioGraph) (e : PlaybackEntity) :
    AudioGraph × PlaybackEntity :=
  match e.playAudio with
  | none => (g, e)
  | some play =>
    if assets play.assetId then
      match e.timeStretch with
      | some ts =>
        let r := g.add (.timeStretchU play.gain play.speed play.looping
          ts.stretch_factor ts.pitch_cents true)
        (r.1, { e with playAudio := none,
                       audioEmitter := some ⟨r.2⟩,
                       playbackState := .Playing,
                       tsControl := some ⟨ts.stretch_factor, ts.pitch_cents⟩,
                       despawnOnFinish := e.despawnOnFinish || play.auto_despawn })
      | none =>
        let r := g.add (.samplerU play.gain play.speed play.looping true)
        (r.1, { e with playAudio := none,
                       audioEmitter := some ⟨r.2⟩,
                       playbackState := .Playing,
                       despawnOnFinish := e.despawnOnFinish || play.auto_despawn })
    else (g, e)

/-- Single-entity world for the tick-level model of `audio_playback_system`.
`lastRun` is the system's last-run change tick (Bevy change detection). -/
structure SamplerWorld where
  graph : AudioGraph
  entity : PlaybackEntity
  lastRun : ℕ
deriving DecidableEq

/-- One run of `audio_playback_system` at change tick `tick`.  The
`Query<(Entity, &PlayAudio), Added<PlayAudio>>` filter matches only if the
component was inserted after the system's previous run; after the run the
system's last-run tick advances to `tick`.  `assets tick a` tells whether
asset `a` has finished decoding by tick `tick`. -/
def audio_playback_tick (assets : ℕ → ℕ → Bool) (tick : ℕ) (w : SamplerWorld) :
    SamplerWorld :=
  if w.entity.playAudio.isSome ∧ w.lastRun < w.entity.addedTick then
    let r := audio_playback_entity (assets tick) w.graph w.entity
    { graph := r.1, entity := r.2, lastRun := tick }
  else { w with lastRun := tick }

/-- Per-entity loop body of `audio_cleanup_system` (systems.rs:107-144).
Entities without an `AudioEmitter` are not in the query.  A `Playing`
entity whose node is not a currently-playing `SamplerUnit`
(`unwrap_or(false)`) has its state set to `Finished`, its node removed
under a containment guard, and is despawned when `DespawnOnFinish` is
present (modelled by returning `none`). -/
def audio_cleanup_entity (g : AudioGraph) (e : PlaybackEntity) :
    AudioGraph × Option PlaybackEntity :=
  match e.audioEmitter with
  | none => (g, some e)
  | some em =>
    if e.playbackState = .Playing then
      let isPlaying :=
        match g.find em.node_id with
        | some (.samplerU _ _ _ p) => p
        | _ => false
      if isPlaying then (g, some e)
      else
        let g1 := g.removeIfContains em.node_id
        if e.despawnOnFinish then (g1, none)
        else (g1, some { e with playbackState := .Finished })
    else (g, some e)

/-- Plugin formats supported by `plugin_load_system`. -/
inductive PluginKind where
  | vst3
  | clap
  | vst2
deriving DecidableEq

/-- Extension-to-format resolution of `plugin_load_system`
(systems.rs:390-402), applied to the lowercased file extension, with all
plugin-format features enabled. -/
def pluginKindOfExt (ext : String) : Option PluginKind :=
  match ext with
  | "vst3" => some .vst3
  | "clap" => some .clap
  | "dll" => some .vst2
  | "so" => some .vst2
  | "vst" => some .vst2
  | _ => none

/-- `str::to_lowercase`, restricted to the ASCII range the extension match
cares about; mapped over the character list. -/
def lowerString (s : String) : String := ⟨s.data.map Char.toLower⟩

/-- `LoadPlugin` trigger component (components.rs); `ext` is the extension
as extracted by `path.extension().and_then(|e| e.to_str()).unwrap_or("")`. -/
structure LoadPluginC where
  ext : String
  params : List (String × ℚ)
deriving DecidableEq

/-- A session object as seen by the plugin systems.  `pluginHandle` models
the `PluginEmitter { handle }` component with the handle as an opaque id;
`editorOpen` models presence of the `PluginEditorOpen` marker. -/
structure PluginEntity where
  loadPlugin : Option LoadPluginC
  audioEmitter : Option AudioEmitterC
  pluginHandle : Option ℕ
  editorOpen : Bool
deriving DecidableEq

/-- Per-entity loop body of `plugin_load_system` (systems.rs:375-430).
`build` is the external builder oracle
(`engine.vst3/clap/vst2(path).param(..).build()`), returning the control
handle on success.  Result: (graph, entity, failure-reported flag); the
flag records the `warn!`/`error!` report emitted on the two failure
paths. -/
def plugin_load_entity (build : PluginKind → List (String × ℚ) → Except String ℕ)
    (g : AudioGraph) (e : PluginEntity) : AudioGraph × PluginEntity × Bool :=
  match e.loadPlugin with
  | none => (g, e, false)
  | some load =>
    match pluginKindOfExt (lowerString load.ext) with
    | none => (g, { e with loadPlugin := none }, true)
    | some kind =>
      match build kind load.params with
      | .error _ => (g, { e with loadPlugin := none }, true)
      | .ok handle =>
        let r := g.add .pluginU
        (r.1, { e with loadPlugin := none,
                       audioEmitter := some ⟨r.2⟩,
                       pluginHandle := some handle }, false)

/-- Per-entity loop body of `plugin_crash_detect_system`
(systems.rs:450-477).  The query requires both `AudioEmitter` and
`PluginEmitter`.  `isCrashed` is the polled `handle.is_crashed()` flag of
the external plugin host.  On crash the node is removed under a
containment guard and `PluginEmitter`, `PluginEditorOpen` and
`AudioEmitter` are removed; the entity itself is never despawned, hence
the result entity is always `some`. -/
def plugin_crash_detect_entity (isCrashed : ℕ → Bool) (g : AudioGraph)
    (e : PluginEntity) : AudioGraph × Option PluginEntity :=
  match e.audioEmitter, e.pluginHandle with
  | some em, some h =>
    if isCrashed h then
      (g.removeIfContains em.node_id,
       some { e with pluginHandle := none, editorOpen := false, audioEmitter := none })
    else (g, some e)
  | _, _ => (g, some e)

/-- External tutti recording-source enum; only the variant the spec
scenario exercises is needed, the orchestration layer treats the value
opaquely. -/
inductive RecordingSource where
  | Input
deriving DecidableEq

/-- External tutti recording-mode enum; `Replace` is the default used by
`StartRecording::new`. -/
inductive RecordingMode where
  | Replace
deriving DecidableEq

/-- `StartRecording` trigger component (components.rs). -/
structure StartRecordingC where
  channel_index : ℕ
  source : RecordingSource
  mode : RecordingMode
deriving DecidableEq

/-- `StopRecording` trigger component (components.rs). -/
structure StopRecordingC where
  channel_index : ℕ
deriving DecidableEq

/-- `RecordingActive` marker component (components.rs). -/
structure RecordingActiveC where
  channel_index : ℕ
  source : RecordingSource
  mode : RecordingMode
deriving DecidableEq

/-- A session object as seen by the recording systems; the
`RecordingResult` payload (`tutti::RecordedData`) is an opaque id. -/
structure RecEntity where
  startRec : Option StartRecordingC
  stopRec : Option StopRecordingC
  recActive : Option RecordingActiveC
  recResult : Option ℕ
deriving DecidableEq

/-- Per-entity loop body of `recording_start_system` (systems.rs:484-523).
`engineStart` is the oracle for `engine.sampler().start_recording(channel,
source, mode, beat)`.  Success replaces the trigger with
`RecordingActive`; failure logs and removes the trigger. -/
def recording_start_entity
    (engineStart : ℕ → RecordingSource → RecordingMode → ℚ → Except String Unit)
    (beat : ℚ) (e : RecEntity) : RecEntity :=
  match e.startRec with
  | none => e
  | some s =>
    match engineStart s.channel_index s.source s.mode beat with
    | .ok _ => { e with startRec := none,
                        recActive := some ⟨s.channel_index, s.source, s.mode⟩ }
    | .error _ => { e with startRec := none }

/-- Per-entity loop body of `recording_stop_system` (systems.rs:531-566)
for one `StopRecording` entity `e`, together with all other entities
(`others`, visited through `active_query`).  `engineStop` is the oracle
for `engine.sampler().stop_recording(channel)`.  Success removes every
`RecordingActive` with a matching channel index, consumes the trigger and
installs `RecordingResult`; failure logs and only consumes the trigger. -/
def recording_stop_entity (engineStop : ℕ → Except String ℕ)
    (e : RecEntity) (others : List RecEntity) : RecEntity × List RecEntity :=
  match e.stopRec with
  | none => (e, others)
  | some s =>
    match engineStop s.channel_index with
    | .ok data =>
      let strip : RecEntity → RecEntity := fun x =>
        match x.recActive with
        | some a =>
          if a.channel_index = s.channel_index then { x with recActive := none } else x
        | none => x
      ({ strip e with stopRec := none, recResult := some data }, others.map strip)
    | .error _ => ({ e with stopRec := none }, others)

/-- `MidiReceiver` component (midi/components.rs): `node_id` plus an
optional channel filter (`None` = receive all unmatched channels). -/
structure MidiReceiverC where
  node_id : ℕ
  channel : Option ℕ
deriving DecidableEq

/-- `MpeReceiver` component (midi/components.rs): routes all channels to
one synth via the fallback slot. -/
structure MpeReceiverC where
  node_id : ℕ
deriving DecidableEq

/-- tutti's MIDI routing table as visible after a commit: one optional
entry per channel slot plus the fallback slot. -/
structure MidiRoutingTable where
  channelOf : ℕ → Option ℕ
  fallback : Option ℕ

/-- `table.clear()`. -/
def MidiRoutingTable.cleared : MidiRoutingTable :=
  { channelOf := fun _ => none, fallback := none }

/-- `table.channel(ch, unit_id)`. -/
def MidiRoutingTable.setChannel (t : MidiRoutingTable) (ch id : ℕ) : MidiRoutingTable :=
  { t with channelOf := fun c => if c = ch then some id else t.channelOf c }

/-- `table.fallback(unit_id)`. -/
def MidiRoutingTable.setFallback (t : MidiRoutingTable) (id : ℕ) : MidiRoutingTable :=
  { t with fallback := some id }

/-- Loop body of the `all_receivers` pass in `midi_routing_sync_system`. -/
def recvStep (t : MidiRoutingTable) (r : MidiReceiverC) : MidiRoutingTable :=
  match r.channel with
  | some ch => t.setChannel ch r.node_id
  | none => t.setFallback r.node_id

/-- Loop body of the `all_mpe_receivers` pass in `midi_routing_sync_system`. -/
def mpeStep (t : MidiRoutingTable) (m : MpeReceiverC) : MidiRoutingTable :=
  t.setFallback m.node_id

/-- The rebuild protocol of `midi_routing_sync_system`
(midi/systems.rs:108-126): clear, insert one entry per `MidiReceiver`
(channel slot or fallback), then route every `MpeReceiver` to the
fallback slot; `commit()` publishes the result. -/
def rebuildRoutingTable (recvs : List MidiReceiverC) (mpes : List MpeReceiverC) :
    MidiRoutingTable :=
  mpes.foldl mpeStep (recvs.foldl recvStep MidiRoutingTable.cleared)

/-- `midi_routing_sync_system` (midi/systems.rs:84-127), mpe feature
enabled.  `changed`/`removed` are the results of the
`Changed<MidiReceiver>` query and `RemovedComponents<MidiReceiver>`
reader, and likewise for the MPE variants; the dirty check is
`!changed.is_empty() || removed.read().next().is_some() || ...`.  When
nothing is dirty the committed table is left as it was. -/
def midi_routing_sync_system (changed : List MidiReceiverC) (removed : List ℕ)
    (mpeChanged : List MpeReceiverC) (mpeRemoved : List ℕ)
    (allReceivers : List MidiReceiverC) (allMpe : List MpeReceiverC)
    (table : MidiRoutingTable) : MidiRoutingTable :=
  let hasChanges :=
    (!changed.isEmpty) || (!removed.isEmpty) || (!mpeChanged.isEmpty) || (!mpeRemoved.isEmpty)
  if hasChanges then rebuildRoutingTable allReceivers allMpe else table

/-- Characterization (from the spec's words): the binding a channel slot
should hold — the node of the latest `MidiReceiver` filtered to that
channel, if any.  Later list entries are inserted later and win. -/
def lastMatch (c : ℕ) : List MidiReceiverC → Option ℕ
  | [] => none
  | r :: rs =>
    match lastMatch c rs with
    | some v => some v
    | none => if r.channel = some c then some r.node_id else none

/-- Characterization: the node of the latest unfiltered `MidiReceiver`. -/
def lastFallback : List MidiReceiverC → Option ℕ
  | [] => none
  | r :: rs =>
    match lastFallback rs with
    | some v => some v
    | none => match r.channel with
      | none => some r.node_id
      | some _ => none

/-- Characterization: the node of the latest `MpeReceiver`. -/
def lastMpe : List MpeReceiverC → Option ℕ
  | [] => none
  | m :: ms =>
    match lastMpe ms with
    | some v => some v
    | none => some m.node_id

/-- `AttenuationModel` (components.rs). -/
inductive AttenuationModel where
  | InverseDistance
  | Linear
  | Exponential
deriving DecidableEq

/-- Rust `f32::clamp(x, lo, hi)` for `lo ≤ hi`. -/
def rclamp {α : Type} [LinearOrder α] (x lo hi : α) : α := min (max x lo) hi

/-- `compute_attenuation` (systems.rs:346-364), with `f32` arithmetic
modelled exactly in any linearly ordered field.  `powf(-2.0)` is the
integer power `^ (-2 : ℤ)` (C `pow` with an integer exponent); the models
are evaluated only when `distance < max_distance`, otherwise the gain is
forced to `0`. -/
def compute_attenuation {α : Type} [LinearOrderedField α] (distance : α)
    (model : AttenuationModel) (ref_distance max_distance : α) : α :=
  if max_distance ≤ distance then 0
  else
    match model with
    | .InverseDistance => ref_distance / (ref_distance + max (distance - ref_distance) 0)
    | .Linear => 1 - rclamp (distance / max_distance) 0 1
    | .Exponential => rclamp ((distance / ref_distance) ^ (-2 : ℤ)) 0 1

/-- A `glam`/`bevy` 3-vector over the reals. -/
structure Vec3 where
  x : ℝ
  y : ℝ
  z : ℝ

/-- `Vec3::length()`. -/
noncomputable def Vec3.len (v : Vec3) : ℝ :=
  Real.sqrt (v.x * v.x + v.y * v.y + v.z * v.z)

/-- `f32::atan2(self = y, other = x)`: the IEEE four-quadrant arctangent
(signed zeros aside, which `ℝ` cannot distinguish). -/
noncomputable def atan2 (y x : ℝ) : ℝ :=
  if 0 < x then Real.arctan (y / x)
  else if x < 0 then
    if 0 ≤ y then Real.arctan (y / x) + Real.pi
    else Real.arctan (y / x) - Real.pi
  else if 0 < y then Real.pi / 2
  else if y < 0 then -(Real.pi / 2)
  else 0

/-- `f32::to_degrees()`. -/
noncomputable def toDegrees (r : ℝ) : ℝ := r * (180 / Real.pi)

/-- The (azimuth, elevation, distance) triple pushed by
`spatial_audio_sync_system` (systems.rs:201-220).  When a listener exists,
`listenerInv` is its `affine().inverse().transform_point3` map and the
relative position is `listenerInv pos`; with no listener the emitter's
world translation is used directly — note the code then computes
`pos.x.atan2(pos.z)` without the negations of the listener branch. -/
noncomputable def spatialValues (listenerInv : Option (Vec3 → Vec3)) (pos : Vec3) :
    ℝ × ℝ × ℝ :=
  match listenerInv with
  | some inv =>
    let r := inv pos
    (toDegrees (atan2 (-r.x) (-r.z)),
     toDegrees (atan2 r.y (Real.sqrt (r.x * r.x + r.z * r.z))),
     r.len)
  | none =>
    (toDegrees (atan2 pos.x pos.z),
     toDegrees (atan2 pos.y (Real.sqrt (pos.x * pos.x + pos.z * pos.z))),
     pos.len)

/-- Modelled from the spec's words (§4.4, claim C7): azimuth =
atan2(−relative_x, −relative_z), elevation = atan2(relative_y,
sqrt(relative_x² + relative_z²)), distance = magnitude, where the relative
position is taken against the listener, or against the world origin when
no listener exists. -/
noncomputable def spatialValuesSpec (listenerInv : Option (Vec3 → Vec3)) (pos : Vec3) :
    ℝ × ℝ × ℝ :=
  let r := match listenerInv with
    | some inv => inv pos
    | none => pos
  (toDegrees (atan2 (-r.x) (-r.z)),
   toDegrees (atan2 r.y (Real.sqrt (r.x * r.x + r.z * r.z))),
   r.len)

/-- Whether a graph unit is a `SamplerUnit` (the type the cleanup system's
typed lookup asks for). -/
def isSamplerNode : GraphUnit → Bool
  | .samplerU _ _ _ _ => true
  | _ => false

/-- Asset-readiness oracle for the C4 scenario: the referenced asset
finishes decoding at tick 2. -/
def c4Assets : ℕ → ℕ → Bool := fun tick _ => decide (2 ≤ tick)

/-- C4 scenario entity: a `PlayAudio` intent inserted at tick 1. -/
def c4Entity : PlaybackEntity :=
  { playAudio := some ⟨0, false, 1, 1, false⟩, addedTick := 1, timeStretch := none,
    audioEmitter := none, tsControl := none, playbackState := .Stopped,
    despawnOnFinish := false }

/-- C4 scenario world before tick 1. -/
def c4World : SamplerWorld := { graph := ⟨[], 0⟩, entity := c4Entity, lastRun := 0 }

/-- C10 scenario entity: `Playing`, emitter referencing node 5, no despawn
marker. -/
def c10Entity : PlaybackEntity :=
  { playAudio := none, addedTick := 0, timeStretch := none,
    audioEmitter := some ⟨5⟩, tsControl := none, playbackState := .Playing,
    despawnOnFinish := false }

/-- Removing a node really removes it from the association list. -/
theorem contains_remove_self (g : AudioGraph) (id : ℕ) :
    (g.remove id).contains id = false := by
  simp only [AudioGraph.remove, AudioGraph.contains]
  rw [Bool.eq_false_iff]
  intro h
  rcases List.any_eq_true.mp h with ⟨p, hp, hpid⟩
  rcases List.mem_filter.mp hp with ⟨_, hne⟩
  rw [hpid] at hne
  simp at hne

/-- After the guarded removal the node is never in the graph. -/
theorem contains_removeIfContains (g : AudioGraph) (id : ℕ) :
    (g.removeIfContains id).contains id = false := by
  rw [AudioGraph.removeIfContains]
  cases h : g.contains id with
  | false => simp [h]
  | true => simp [contains_remove_self]

/-- C1: for every intent observed by its dispatcher with prerequisites
satisfied, either exactly one emitter handle has been installed on the
session object and the intent removed, or the intent has been removed with
a reported failure — never the handle absent with the intent silently
gone.  First conjunct: `audio_playback_system` with the asset decoded
(the only prerequisite) always installs `AudioEmitter` and consumes
`PlayAudio`.  Second conjunct: `plugin_load_system` either installs both
handles and consumes `LoadPlugin`, or consumes `LoadPlugin` with a
failure report. -/
theorem intent_consumed_with_handle_or_report :
    (∀ (assets : ℕ → Bool) (g : AudioGraph) (e : PlaybackEntity) (p : PlayAudioC),
      e.playAudio = some p → assets p.assetId = true →
      (audio_playback_entity assets g e).2.audioEmitter.isSome = true ∧
      (audio_playback_entity assets g e).2.playAudio = none) ∧
    (∀ (build : PluginKind → List (String × ℚ) → Except String ℕ) (g : AudioGraph)
      (e : PluginEntity) (load : LoadPluginC), e.loadPlugin = some load →
      ((plugin_load_entity build g e).2.1.audioEmitter.isSome = true ∧
       (plugin_load_entity build g e).2.1.pluginHandle.isSome = true ∧
       (plugin_load_entity build g e).2.1.loadPlugin = none ∧
       (plugin_load_entity build g e).2.2 = false) ∨
      ((plugin_load_entity build g e).2.1.loadPlugin = none ∧
       (plugin_load_entity build g e).2.2 = true)) := by
  constructor
  · intro assets g e p he ha
    simp only [audio_playback_entity, he, ha, if_true]
    cases e.timeStretch <;> simp
  · intro build g e load he
    simp only [plugin_load_entity, he]
    cases hk : pluginKindOfExt (lowerString load.ext) with
    | none => right; simp
    | some k =>
      cases hb : build k load.params with
      | error msg => right; simp [hb]
      | ok h => left; simp [hb]

/-- Witness for C1 at concrete inputs: a decoded asset and a successful
vst3 build. -/
theorem intent_consumed_with_handle_or_report_witness :
    ((audio_playback_entity (fun _ => true) ⟨[], 0⟩
        { playAudio := some ⟨0, false, 1, 1, false⟩, addedTick := 0, timeStretch := none,
          audioEmitter := none, tsControl := none, playbackState := .Stopped,
          despawnOnFinish := false }).2.audioEmitter.isSome = true ∧
     (audio_playback_entity (fun _ => true) ⟨[], 0⟩
        { playAudio := some ⟨0, false, 1, 1, false⟩, addedTick := 0, timeStretch := none,
          audioEmitter := none, tsControl := none, playbackState := .Stopped,
          despawnOnFinish := false }).2.playAudio = none) ∧
    (((plugin_load_entity (fun _ _ => .ok 7) ⟨[], 0⟩
        { loadPlugin := some ⟨"vst3", []⟩, audioEmitter := none, pluginHandle := none,
          editorOpen := false }).2.1.audioEmitter.isSome = true ∧
      (plugin_load_entity (fun _ _ => .ok 7) ⟨[], 0⟩
        { loadPlugin := some ⟨"vst3", []⟩, audioEmitter := none, pluginHandle := none,
          editorOpen := false }).2.1.pluginHandle.isSome = true ∧
      (plugin_load_entity (fun _ _ => .ok 7) ⟨[], 0⟩
        { loadPlugin := some ⟨"vst3", []⟩, audioEmitter := none, pluginHandle := none,
          editorOpen := false }).2.1.loadPlugin = none ∧
      (plugin_load_entity (fun _ _ => .ok 7) ⟨[], 0⟩
        { loadPlugin := some ⟨"vst3", []⟩, audioEmitter := none, pluginHandle := none,
          editorOpen := false }).2.2 = false) ∨
     ((plugin_load_entity (fun _ _ => .ok 7) ⟨[], 0⟩
        { loadPlugin := some ⟨"vst3", []⟩, audioEmitter := none, pluginHandle := none,
          editorOpen := false }).2.1.loadPlugin = none ∧
      (plugin_load_entity (fun _ _ => .ok 7) ⟨[], 0⟩
        { loadPlugin := some ⟨"vst3", []⟩, audioEmitter := none, pluginHandle := none,
          editorOpen := false }).2.2 = true)) :=
  ⟨intent_consumed_with_handle_or_report.1 (fun _ => true) ⟨[], 0⟩ _ ⟨0, false, 1, 1, false⟩
      rfl rfl,
   intent_consumed_with_handle_or_report.2 (fun _ _ => .ok 7) ⟨[], 0⟩ _ ⟨"vst3", []⟩ rfl⟩

/-- C3: a plugin session whose polled crash flag is true is, in the same
tick, stripped of `AudioEmitter` and of both plugin markers
(`PluginEmitter`, `PluginEditorOpen`), its node is no longer in the graph,
and the session object itself survives (the system returns it, never
despawning). -/
theorem plugin_crash_strips_session (isCrashed : ℕ → Bool) (g : AudioGraph)
    (e : PluginEntity) (em : AudioEmitterC) (h : ℕ)
    (he : e.audioEmitter = some em) (hh : e.pluginHandle = some h)
    (hc : isCrashed h = true) :
    (plugin_crash_detect_entity isCrashed g e).2 =
      some { e with pluginHandle := none, editorOpen := false, audioEmitter := none } ∧
    (plugin_crash_detect_entity isCrashed g e).1.contains em.node_id = false := by
  constructor
  · simp [plugin_crash_detect_entity, he, hh, hc]
  · simp [plugin_crash_detect_entity, he, hh, hc, contains_removeIfContains]

/-- Witness for C3: node 3 in the graph, crashed handle 1. -/
theorem plugin_crash_strips_session_witness :
    (plugin_crash_detect_entity (fun _ => true) ⟨[(3, .pluginU)], 4⟩
        { loadPlugin := none, audioEmitter := some ⟨3⟩, pluginHandle := some 1,
          editorOpen := true }).2 =
      some { loadPlugin := none, audioEmitter := none, pluginHandle := none,
             editorOpen := false } ∧
    (plugin_crash_detect_entity (fun _ => true) ⟨[(3, .pluginU)], 4⟩
        { loadPlugin := none, audioEmitter := some ⟨3⟩, pluginHandle := some 1,
          editorOpen := true }).1.contains 3 = false :=
  plugin_crash_strips_session (fun _ => true) ⟨[(3, .pluginU)], 4⟩
    { loadPlugin := none, audioEmitter := some ⟨3⟩, pluginHandle := some 1,
      editorOpen := true } ⟨3⟩ 1 rfl rfl rfl

/-- C4 (code-bug evidence): a `PlayAudio` intent inserted at tick 1 whose
asset is not yet decoded is correctly deferred on tick 1 (entity and graph
untouched), but on tick 2 — when the asset has finished decoding
(`c4Assets 2 0 = true`) — the `Added<PlayAudio>` filter no longer matches
the entity (added tick 1 is not after the system's last run tick 1), so
the intent is never consumed and no emitter is ever installed, contrary to
the deferral-and-retry contract and to the code's own
"will retry next frame" log message. -/
theorem deferred_play_audio_never_retried :
    ((audio_playback_tick c4Assets 1 c4World).entity = c4Entity ∧
     (audio_playback_tick c4Assets 1 c4World).graph = c4World.graph) ∧
    c4Assets 2 0 = true ∧
    ((audio_playback_tick c4Assets 2 (audio_playback_tick c4Assets 1 c4World)).entity =
        c4Entity ∧
     (audio_playback_tick c4Assets 2
        (audio_playback_tick c4Assets 1 c4World)).entity.audioEmitter = none) := by
  decide

/-- C9: plugin kind is resolved from the lowercased file extension
(vst3→VST3, clap→CLAP, dll/so/vst→VST2); an unrecognized extension and a
builder error are both permanent failures that remove the `LoadPlugin`
intent, install no emitter handle and leave the graph exactly as it was;
a successful build attaches both `AudioEmitter` and the plugin control
handle and consumes the intent. -/
theorem plugin_ext_resolution_and_load_contract :
    (pluginKindOfExt "vst3" = some .vst3 ∧ pluginKindOfExt "clap" = some .clap ∧
     pluginKindOfExt "dll" = some .vst2 ∧ pluginKindOfExt "so" = some .vst2 ∧
     pluginKindOfExt "vst" = some .vst2) ∧
    (∀ (build : PluginKind → List (String × ℚ) → Except String ℕ) (g : AudioGraph)
      (e : PluginEntity) (load : LoadPluginC), e.loadPlugin = some load →
      (pluginKindOfExt (lowerString load.ext) = none →
        plugin_load_entity build g e = (g, { e with loadPlugin := none }, true)) ∧
      (∀ (k : PluginKind) (msg : String),
        pluginKindOfExt (lowerString load.ext) = some k →
        build k load.params = .error msg →
        plugin_load_entity build g e = (g, { e with loadPlugin := none }, true)) ∧
      (∀ (k : PluginKind) (h : ℕ),
        pluginKindOfExt (lowerString load.ext) = some k →
        build k load.params = .ok h →
        (plugin_load_entity build g e).2.1.audioEmitter.isSome = true ∧
        (plugin_load_entity build g e).2.1.pluginHandle = some h ∧
        (plugin_load_entity build g e).2.1.loadPlugin = none)) := by
  refine ⟨⟨rfl, rfl, rfl, rfl, rfl⟩, ?_⟩
  intro build g e load he
  refine ⟨?_, ?_, ?_⟩
  · intro hk
    simp [plugin_load_entity, he, hk]
  · intro k msg hk hb
    simp [plugin_load_entity, he, hk, hb]
  · intro k h hk hb
    simp [plugin_load_entity, he, hk, hb]

/-- Witness for C9: all three outcomes at concrete inputs, including the
uppercase extension being lowercased first. -/
theorem plugin_ext_resolution_and_load_contract_witness :
    (pluginKindOfExt "vst3" = some .vst3 ∧ pluginKindOfExt "clap" = some .clap ∧
     pluginKindOfExt "dll" = some .vst2 ∧ pluginKindOfExt "so" = some .vst2 ∧
     pluginKindOfExt "vst" = some .vst2) ∧
    (plugin_load_entity (fun _ _ => .ok 3) ⟨[], 0⟩
        { loadPlugin := some ⟨"xyz", []⟩, audioEmitter := none, pluginHandle := none,
          editorOpen := false } =
      (⟨[], 0⟩, { loadPlugin := none, audioEmitter := none, pluginHandle := none,
                  editorOpen := false }, true)) ∧
    (plugin_load_entity (fun _ _ => .error "load failed") ⟨[], 0⟩
        { loadPlugin := some ⟨"CLAP", []⟩, audioEmitter := none, pluginHandle := none,
          editorOpen := false } =
      (⟨[], 0⟩, { loadPlugin := none, audioEmitter := none, pluginHandle := none,
                  editorOpen := false }, true)) ∧
    ((plugin_load_entity (fun _ _ => .ok 3) ⟨[], 0⟩
        { loadPlugin := some ⟨"VST3", []⟩, audioEmitter := none, pluginHandle := none,
          editorOpen := false }).2.1.audioEmitter.isSome = true ∧
     (plugin_load_entity (fun _ _ => .ok 3) ⟨[], 0⟩
        { loadPlugin := some ⟨"VST3", []⟩, audioEmitter := none, pluginHandle := none,
          editorOpen := false }).2.1.pluginHandle = some 3 ∧
     (plugin_load_entity (fun _ _ => .ok 3) ⟨[], 0⟩
        { loadPlugin := some ⟨"VST3", []⟩, audioEmitter := none, pluginHandle := none,
          editorOpen := false }).2.1.loadPlugin = none) :=
  ⟨plugin_ext_resolution_and_load_contract.1,
   (plugin_ext_resolution_and_load_contract.2 (fun _ _ => .ok 3) ⟨[], 0⟩ _
      ⟨"xyz", []⟩ rfl).1 (by decide),
   (plugin_ext_resolution_and_load_contract.2 (fun _ _ => .error "load failed") ⟨[], 0⟩ _
      ⟨"CLAP", []⟩ rfl).2.1 .clap "load failed" (by decide) rfl,
   (plugin_ext_resolution_and_load_contract.2 (fun _ _ => .ok 3) ⟨[], 0⟩ _
      ⟨"VST3", []⟩ rfl).2.2 .vst3 3 (by decide) rfl⟩

/-- C10 (counterexample): a `Playing` session whose emitter refers to a
node that is present in the graph but is not a sampler unit does not have
the node-removal step skipped — the containment check passes and the node
is removed from the graph. -/
theorem cleanup_removes_present_non_sampler_node :
    AudioGraph.contains ⟨[(5, .pluginU)], 6⟩ 5 = true ∧
    (audio_cleanup_entity ⟨[(5, .pluginU)], 6⟩ c10Entity).1.contains 5 = false := by
  decide

/-- C10 (amended): a `Playing` session object whose emitter node is absent
from the graph or is not a sampler unit is treated as not playing: its
state becomes `Finished` (or the object is despawned when the
despawn-on-finish marker is present); when the node is absent the removal
is skipped via the containment check and the graph is untouched, while a
present non-sampler node is removed; in either case the node is absent
afterwards and no error occurs (the step is total). -/
theorem audio_cleanup_not_playing_contract (g : AudioGraph) (e : PlaybackEntity)
    (em : AudioEmitterC) (he : e.audioEmitter = some em)
    (hs : e.playbackState = .Playing)
    (hns : ∀ u, g.find em.node_id = some u → isSamplerNode u = false) :
    ((audio_cleanup_entity g e).2 =
      if e.despawnOnFinish then none else some { e with playbackState := .Finished }) ∧
    (g.contains em.node_id = false → (audio_cleanup_entity g e).1 = g) ∧
    (audio_cleanup_entity g e).1.contains em.node_id = false := by
  have hplay : (match g.find em.node_id with
      | some (.samplerU _ _ _ p) => p
      | _ => false) = false := by
    cases hf : g.find em.node_id with
    | none => rfl
    | some u =>
      cases u with
      | samplerU a b c p =>
        have hh := hns _ hf
        simp [isSamplerNode] at hh
      | timeStretchU a b c d f p => rfl
      | pluginU => rfl
      | pannerU => rfl
  refine ⟨?_, ?_, ?_⟩
  · simp only [audio_cleanup_entity, he, hs, if_true, hplay]
    cases e.despawnOnFinish <;> simp
  · intro hnc
    simp only [audio_cleanup_entity, he, hs, if_true, hplay]
    cases e.despawnOnFinish <;>
      simp [AudioGraph.removeIfContains, hnc]
  · simp only [audio_cleanup_entity, he, hs, if_true, hplay]
    cases e.despawnOnFinish <;>
      simp [contains_removeIfContains]

/-- Witness for C10 at a concrete input: emitter node 5 absent from an
empty graph. -/
theorem audio_cleanup_not_playing_contract_witness :
    ((audio_cleanup_entity ⟨[], 0⟩ c10Entity).2 =
      if c10Entity.despawnOnFinish then none
      else some { c10Entity with playbackState := .Finished }) ∧
    (AudioGraph.contains ⟨[], 0⟩ (5 : ℕ) = false →
      (audio_cleanup_entity ⟨[], 0⟩ c10Entity).1 = ⟨[], 0⟩) ∧
    (audio_cleanup_entity ⟨[], 0⟩ c10Entity).1.contains 5 = false :=
  audio_cleanup_not_playing_contract ⟨[], 0⟩ c10Entity ⟨5⟩ rfl rfl
    (fun u hu => by simp [AudioGraph.find] at hu)

/-- The receiver pass: a channel slot ends up holding the latest matching
channel-filtered binding, and otherwise whatever the accumulator held. -/
theorem recvFold_channelOf (c : ℕ) (rs : List MidiReceiverC) :
    ∀ t : MidiRoutingTable,
      (rs.foldl recvStep t).channelOf c =
        match lastMatch c rs with
        | some v => some v
        | none => t.channelOf c := by
  induction rs with
  | nil => intro t; simp [lastMatch]
  | cons r rs ih =>
    intro t
    rw [List.foldl_cons, ih]
    cases hm : lastMatch c rs with
    | some v => simp [lastMatch, hm]
    | none =>
      simp only [lastMatch, hm]
      by_cases hrc : r.channel = some c
      · simp only [hrc, if_pos rfl, recvStep, MidiRoutingTable.setChannel]
        simp
      · rw [if_neg hrc]
        cases hc : r.channel with
        | none => simp [recvStep, hc, MidiRoutingTable.setFallback]
        | some ch =>
          have hne : ¬ c = ch := by
            intro hcc
            apply hrc
            rw [hc, hcc]
          simp [recvStep, hc, MidiRoutingTable.setChannel, hne]

/-- The receiver pass: the fallback slot ends up holding the latest
unfiltered binding, and otherwise whatever the accumulator held. -/
theorem recvFold_fallback (rs : List MidiReceiverC) :
    ∀ t : MidiRoutingTable,
      (rs.foldl recvStep t).fallback =
        match lastFallback rs with
        | some v => some v
        | none => t.fallback := by
  induction rs with
  | nil => intro t; simp [lastFallback]
  | cons r rs ih =>
    intro t
    rw [List.foldl_cons, ih]
    cases hm : lastFallback rs with
    | some v => simp [lastFallback, hm]
    | none =>
      simp only [lastFallback, hm]
      cases hc : r.channel with
      | none => simp [recvStep, hc, MidiRoutingTable.setFallback]
      | some ch => simp [recvStep, hc, MidiRoutingTable.setChannel]

/-- The MPE pass never touches channel slots. -/
theorem mpeFold_channelOf (ms : List MpeReceiverC) :
    ∀ (t : MidiRoutingTable) (c : ℕ),
      (ms.foldl mpeStep t).channelOf c = t.channelOf c := by
  induction ms with
  | nil => intro t c; rfl
  | cons m ms ih =>
    intro t c
    rw [List.foldl_cons, ih]
    rfl

/-- The MPE pass: the fallback slot ends up holding the latest MPE
receiver, and otherwise whatever the accumulator held. -/
theorem mpeFold_fallback (ms : List MpeReceiverC) :
    ∀ t : MidiRoutingTable,
      (ms.foldl mpeStep t).fallback =
        match lastMpe ms with
        | some v => some v
        | none => t.fallback := by
  induction ms with
  | nil => intro t; simp [lastMpe]
  | cons m ms ih =>
    intro t
    rw [List.foldl_cons, ih]
    cases hm : lastMpe ms with
    | some v => simp [lastMpe, hm]
    | none => simp [lastMpe, hm, mpeStep, MidiRoutingTable.setFallback]

/-- A rebuilt table's channel slot is exactly the latest matching binding. -/
theorem rebuild_channelOf (recvs : List MidiReceiverC) (mpes : List MpeReceiverC)
    (c : ℕ) :
    (rebuildRoutingTable recvs mpes).channelOf c = lastMatch c recvs := by
  rw [rebuildRoutingTable, mpeFold_channelOf, recvFold_channelOf]
  cases h : lastMatch c recvs <;> simp [MidiRoutingTable.cleared]

/-- A rebuilt table's fallback slot is the latest MPE receiver if any,
else the latest unfiltered binding. -/
theorem rebuild_fallback (recvs : List MidiReceiverC) (mpes : List MpeReceiverC) :
    (rebuildRoutingTable recvs mpes).fallback =
      match lastMpe mpes with
      | some v => some v
      | none => lastFallback recvs := by
  rw [rebuildRoutingTable, mpeFold_fallback]
  cases hm : lastMpe mpes with
  | some v => rfl
  | none =>
    rw [recvFold_fallback]
    cases h : lastFallback recvs <;> simp [MidiRoutingTable.cleared]

/-- C2: the routing table is rebuilt only on a tick in which at least one
receiver binding (of any kind, MPE included) was added, changed, or
removed — otherwise the committed table is left untouched; and after a
rebuild commits, every channel slot holds exactly the latest
channel-filtered binding for that channel (none when there is no such
binding, so no stale entries survive), while the fallback slot holds the
latest unfiltered binding, with MPE receivers claiming it last. -/
theorem midi_routing_sync_contract (changed : List MidiReceiverC) (removed : List ℕ)
    (mpeChanged : List MpeReceiverC) (mpeRemoved : List ℕ)
    (allReceivers : List MidiReceiverC) (allMpe : List MpeReceiverC)
    (table : MidiRoutingTable) :
    (changed = [] → removed = [] → mpeChanged = [] → mpeRemoved = [] →
      midi_routing_sync_system changed removed mpeChanged mpeRemoved
        allReceivers allMpe table = table) ∧
    (changed ≠ [] ∨ removed ≠ [] ∨ mpeChanged ≠ [] ∨ mpeRemoved ≠ [] →
      (∀ c, (midi_routing_sync_system changed removed mpeChanged mpeRemoved
          allReceivers allMpe table).channelOf c = lastMatch c allReceivers) ∧
      (midi_routing_sync_system changed removed mpeChanged mpeRemoved
          allReceivers allMpe table).fallback =
        match lastMpe allMpe with
        | some v => some v
        | none => lastFallback allReceivers) := by
  constructor
  · intro h1 h2 h3 h4
    subst h1; subst h2; subst h3; subst h4
    simp [midi_routing_sync_system]
  · intro hd
    have hch : ((!changed.isEmpty) || (!removed.isEmpty) || (!mpeChanged.isEmpty) ||
        (!mpeRemoved.isEmpty)) = true := by
      rcases hd with h | h | h | h
      · cases changed with
        | nil => exact absurd rfl h
        | cons a l => simp
      · cases removed with
        | nil => exact absurd rfl h
        | cons a l => simp
      · cases mpeChanged with
        | nil => exact absurd rfl h
        | cons a l => simp
      · cases mpeRemoved with
        | nil => exact absurd rfl h
        | cons a l => simp
    simp only [midi_routing_sync_system, hch, if_true]
    exact ⟨fun c => rebuild_channelOf allReceivers allMpe c,
           rebuild_fallback allReceivers allMpe⟩

/-- Witness for C2: a clean tick leaves the table untouched; a dirty tick
rebuilds, with channel 5 routed to node 7 and the MPE receiver 9 winning
the fallback slot. -/
theorem midi_routing_sync_contract_witness :
    (midi_routing_sync_system [] [] [] [] [⟨7, some 5⟩] [⟨9⟩]
        MidiRoutingTable.cleared = MidiRoutingTable.cleared) ∧
    ((midi_routing_sync_system [⟨7, some 5⟩] [] [] [] [⟨7, some 5⟩, ⟨8, none⟩] [⟨9⟩]
        MidiRoutingTable.cleared).channelOf 5 = lastMatch 5 [⟨7, some 5⟩, ⟨8, none⟩]) ∧
    ((midi_routing_sync_system [⟨7, some 5⟩] [] [] [] [⟨7, some 5⟩, ⟨8, none⟩] [⟨9⟩]
        MidiRoutingTable.cleared).fallback =
      match lastMpe [⟨9⟩] with
      | some v => some v
      | none => lastFallback [⟨7, some 5⟩, ⟨8, none⟩]) :=
  ⟨(midi_routing_sync_contract [] [] [] [] [⟨7, some 5⟩] [⟨9⟩]
      MidiRoutingTable.cleared).1 rfl rfl rfl rfl,
   ((midi_routing_sync_contract [⟨7, some 5⟩] [] [] [] [⟨7, some 5⟩, ⟨8, none⟩] [⟨9⟩]
      MidiRoutingTable.cleared).2 (Or.inl (by decide))).1 5,
   ((midi_routing_sync_contract [⟨7, some 5⟩] [] [] [] [⟨7, some 5⟩, ⟨8, none⟩] [⟨9⟩]
      MidiRoutingTable.cleared).2 (Or.inl (by decide))).2⟩

/-- C5: starting a recording on channel 2 and then stopping channel 2
(engine succeeding on both) installs a terminal `RecordingResult` and
removes the channel-2 `RecordingActive` marker; and any stop whose engine
call fails leaves every `RecordingActive` marker (on the stop entity and
on all other entities) and any existing result untouched, consuming only
the `StopRecording` intent. -/
theorem recording_roundtrip_and_stop_failure
    (engineStart : ℕ → RecordingSource → RecordingMode → ℚ → Except String Unit)
    (engineStop : ℕ → Except String ℕ) (beat : ℚ) (d : ℕ)
    (hstart : engineStart 2 .Input .Replace beat = .ok ())
    (hstop : engineStop 2 = .ok d) :
    ((recording_start_entity engineStart beat
        ⟨some ⟨2, .Input, .Replace⟩, none, none, none⟩).recActive =
      some ⟨2, .Input, .Replace⟩ ∧
     (recording_stop_entity engineStop
        { recording_start_entity engineStart beat
            ⟨some ⟨2, .Input, .Replace⟩, none, none, none⟩ with
          stopRec := some ⟨2⟩ } []).1.recResult = some d ∧
     (recording_stop_entity engineStop
        { recording_start_entity engineStart beat
            ⟨some ⟨2, .Input, .Replace⟩, none, none, none⟩ with
          stopRec := some ⟨2⟩ } []).1.recActive = none) ∧
    (∀ (e : RecEntity) (others : List RecEntity) (s : StopRecordingC) (msg : String),
      e.stopRec = some s → engineStop s.channel_index = .error msg →
      (recording_stop_entity engineStop e others).1.recActive = e.recActive ∧
      (recording_stop_entity engineStop e others).2 = others ∧
      (recording_stop_entity engineStop e others).1.recResult = e.recResult ∧
      (recording_stop_entity engineStop e others).1.stopRec = none) := by
  constructor
  · have h1 : recording_start_entity engineStart beat
        ⟨some ⟨2, .Input, .Replace⟩, none, none, none⟩ =
        ⟨none, none, some ⟨2, .Input, .Replace⟩, none⟩ := by
      simp [recording_start_entity, hstart]
    rw [h1]
    refine ⟨rfl, ?_, ?_⟩ <;> simp [recording_stop_entity, hstop]
  · intro e others s msg hsr herr
    simp [recording_stop_entity, hsr, herr]

/-- Witness for C5: engine succeeding on channel 2 and failing on channel
3 (where no session is active). -/
theorem recording_roundtrip_and_stop_failure_witness :
    ((recording_start_entity (fun _ _ _ _ => .ok ()) 0
        ⟨some ⟨2, .Input, .Replace⟩, none, none, none⟩).recActive =
      some ⟨2, .Input, .Replace⟩ ∧
     (recording_stop_entity (fun ch => if ch = 2 then .ok 42 else .error "not recording")
        { recording_start_entity (fun _ _ _ _ => .ok ()) 0
            ⟨some ⟨2, .Input, .Replace⟩, none, none, none⟩ with
          stopRec := some ⟨2⟩ } []).1.recResult = some 42 ∧
     (recording_stop_entity (fun ch => if ch = 2 then .ok 42 else .error "not recording")
        { recording_start_entity (fun _ _ _ _ => .ok ()) 0
            ⟨some ⟨2, .Input, .Replace⟩, none, none, none⟩ with
          stopRec := some ⟨2⟩ } []).1.recActive = none) ∧
    ((recording_stop_entity (fun ch => if ch = 2 then .ok 42 else .error "not recording")
        ⟨none, some ⟨3⟩, none, none⟩
        [⟨none, none, some ⟨2, .Input, .Replace⟩, none⟩]).1.recActive = none ∧
     (recording_stop_entity (fun ch => if ch = 2 then .ok 42 else .error "not recording")
        ⟨none, some ⟨3⟩, none, none⟩
        [⟨none, none, some ⟨2, .Input, .Replace⟩, none⟩]).2 =
       [⟨none, none, some ⟨2, .Input, .Replace⟩, none⟩] ∧
     (recording_stop_entity (fun ch => if ch = 2 then .ok 42 else .error "not recording")
        ⟨none, some ⟨3⟩, none, none⟩
        [⟨none, none, some ⟨2, .Input, .Replace⟩, none⟩]).1.recResult = none ∧
     (recording_stop_entity (fun ch => if ch = 2 then .ok 42 else .error "not recording")
        ⟨none, some ⟨3⟩, none, none⟩
        [⟨none, none, some ⟨2, .Input, .Replace⟩, none⟩]).1.stopRec = none) :=
  ⟨(recording_roundtrip_and_stop_failure (fun _ _ _ _ => .ok ())
      (fun ch => if ch = 2 then .ok 42 else .error "not recording") 0 42 rfl rfl).1,
   (recording_roundtrip_and_stop_failure (fun _ _ _ _ => .ok ())
      (fun ch => if ch = 2 then .ok 42 else .error "not recording") 0 42 rfl rfl).2
     ⟨none, some ⟨3⟩, none, none⟩
     [⟨none, none, some ⟨2, .Input, .Replace⟩, none⟩] ⟨3⟩ "not recording" rfl rfl⟩

/-- The attenuation gain is nonnegative whenever the reference distance is
positive. -/
theorem attenuation_nonneg (model : AttenuationModel) (ref md d : ℚ)
    (href : 0 < ref) : 0 ≤ compute_attenuation d model ref md := by
  by_cases hmd : md ≤ d
  · simp [compute_attenuation, hmd]
  · cases model with
    | InverseDistance =>
      simp only [compute_attenuation, if_neg hmd]
      apply div_nonneg href.le
      have h2 := le_max_right (d - ref) 0
      linarith
    | Linear =>
      simp only [compute_attenuation, if_neg hmd, rclamp]
      have h2 : min (max (d / md) 0) 1 ≤ 1 := min_le_right _ _
      linarith
    | Exponential =>
      simp only [compute_attenuation, if_neg hmd, rclamp]
      exact le_min (le_max_right _ _) zero_le_one

/-- `f32::clamp` is monotone in its argument. -/
theorem rclamp_mono {x y lo hi : ℚ} (h : x ≤ y) : rclamp x lo hi ≤ rclamp y lo hi :=
  min_le_min (max_le_max h (le_refl lo)) (le_refl hi)

/-- C6 (counterexample): with the inverse-distance model,
`ref_distance = -1` and `max_distance = 100`, the gain at distance 1 is
`-1` and at distance 2 is `-1/2`: although `-1 ≤ 1 ≤ 2` (both distances at
or beyond the reference and below the maximum), the gain strictly
increases, so gain is not non-increasing for all `ref_distance`
parameters. -/
theorem attenuation_not_antitone_for_negative_ref :
    ((-1 : ℚ) ≤ 1) ∧ ((1 : ℚ) ≤ 2) ∧
    compute_attenuation (1 : ℚ) .InverseDistance (-1) 100 <
      compute_attenuation (2 : ℚ) .InverseDistance (-1) 100 := by
  refine ⟨by norm_num, by norm_num, ?_⟩
  rw [show compute_attenuation (1 : ℚ) .InverseDistance (-1) 100 = -1 from by
    rw [compute_attenuation, if_neg (by norm_num)]
    rw [show max ((1 : ℚ) - -1) 0 = 2 from by rw [max_eq_left (by norm_num)]; norm_num]
    norm_num]
  rw [show compute_attenuation (2 : ℚ) .InverseDistance (-1) 100 = -(1 / 2) from by
    rw [compute_attenuation, if_neg (by norm_num)]
    rw [show max ((2 : ℚ) - -1) 0 = 3 from by rw [max_eq_left (by norm_num)]; norm_num]
    norm_num]
  norm_num

/-- C6 (amended): for every attenuation model and all `max_distance`, the
gain is 0 whenever `distance ≥ max_distance`; and provided the
`ref_distance` parameter is positive, the gain is non-increasing in
distance on `distance ≥ ref_distance`. -/
theorem attenuation_zero_at_max_and_antitone (model : AttenuationModel) (ref md : ℚ) :
    (∀ d : ℚ, md ≤ d → compute_attenuation d model ref md = 0) ∧
    (0 < ref → ∀ d1 d2 : ℚ, ref ≤ d1 → d1 ≤ d2 →
      compute_attenuation d2 model ref md ≤ compute_attenuation d1 model ref md) := by
  constructor
  · intro d hd
    simp [compute_attenuation, hd]
  · intro href d1 d2 h1 h12
    by_cases h2 : md ≤ d2
    · rw [show compute_attenuation d2 model ref md = 0 from by
        simp [compute_attenuation, h2]]
      exact attenuation_nonneg model ref md d1 href
    · have h1m : ¬ md ≤ d1 := fun h => h2 (h.trans h12)
      have hd1 : (0 : ℚ) < d1 := lt_of_lt_of_le href h1
      have hd2le : ref ≤ d2 := h1.trans h12
      simp only [compute_attenuation]
      rw [if_neg h2, if_neg h1m]
      cases model with
      | InverseDistance =>
        rw [max_eq_left (sub_nonneg.mpr h1), max_eq_left (sub_nonneg.mpr hd2le)]
        rw [show ref + (d1 - ref) = d1 from by ring,
          show ref + (d2 - ref) = d2 from by ring]
        exact div_le_div_of_nonneg_left href.le hd1 h12
      | Linear =>
        have hmd : (0 : ℚ) < md := lt_trans hd1 (not_le.mp h1m)
        have hdiv : d1 / md ≤ d2 / md := (div_le_div_iff_of_pos_right hmd).mpr h12
        have hcl := @rclamp_mono (d1 / md) (d2 / md) 0 1 hdiv
        linarith
      | Exponential =>
        apply rclamp_mono
        have hx1 : (0 : ℚ) < d1 / ref := div_pos hd1 href
        have hxle : d1 / ref ≤ d2 / ref := (div_le_div_iff_of_pos_right href).mpr h12
        rw [zpow_neg, zpow_neg, show ((2 : ℤ)) = ((2 : ℕ) : ℤ) from rfl, zpow_natCast,
          zpow_natCast]
        exact inv_anti₀ (pow_pos hx1 2) (pow_le_pow_left₀ hx1.le hxle 2)

/-- Witness for C6 (amended) at concrete inputs: linear model,
`ref_distance = 1`, `max_distance = 100`. -/
theorem attenuation_zero_at_max_and_antitone_witness :
    compute_attenuation (150 : ℚ) .Linear 1 100 = 0 ∧
    compute_attenuation (2 : ℚ) .Linear 1 100 ≤ compute_attenuation (1 : ℚ) .Linear 1 100 :=
  ⟨(attenuation_zero_at_max_and_antitone .Linear 1 100).1 150 (by norm_num),
   (attenuation_zero_at_max_and_antitone .Linear 1 100).2 (by norm_num) 1 2
     (by norm_num) (by norm_num)⟩

/-- C7 (counterexample): with no listener and an emitter at world position
(1, 0, 0), the code pushes azimuth `atan2(x, z)` = 90 degrees, while the
spec formula `atan2(−relative_x, −relative_z)` (with the relative position
taken against the world origin) gives −90 degrees — the no-listener branch
does not negate its arguments. -/
theorem spatial_no_listener_azimuth_mismatch :
    (spatialValues none ⟨1, 0, 0⟩).1 = 90 ∧
    (spatialValuesSpec none ⟨1, 0, 0⟩).1 = -90 ∧ ((90 : ℝ) ≠ -90) := by
  refine ⟨?_, ?_, by norm_num⟩
  · show toDegrees (atan2 1 0) = 90
    rw [show atan2 1 0 = Real.pi / 2 from by rw [atan2]; norm_num]
    rw [toDegrees]
    have hpi := Real.pi_ne_zero
    field_simp
    ring
  · show toDegrees (atan2 (-(1 : ℝ)) (-(0 : ℝ))) = -90
    rw [show atan2 (-(1 : ℝ)) (-(0 : ℝ)) = -(Real.pi / 2) from by rw [atan2]; norm_num]
    rw [toDegrees]
    have hpi := Real.pi_ne_zero
    field_simp
    ring

/-- C7 (amended): when a listener exists, the values pushed to the panner
are exactly the spec's formulas applied to the inverse-transformed
relative position (azimuth `atan2(−x, −z)` in degrees, elevation
`atan2(y, sqrt(x²+z²))` in degrees, distance the magnitude); when no
listener exists, elevation and distance still follow the spec's formulas
on the raw world position, but the azimuth is the unnegated
`atan2(x, z)` in degrees. -/
theorem spatial_values_vs_spec (inv : Vec3 → Vec3) (pos : Vec3) :
    spatialValues (some inv) pos = spatialValuesSpec (some inv) pos ∧
    (spatialValues none pos).1 = toDegrees (atan2 pos.x pos.z) ∧
    (spatialValues none pos).2 = (spatialValuesSpec none pos).2 :=
  ⟨rfl, rfl, rfl⟩

/-- C8 (counterexample): with the listener at the origin facing −Z (its
inverse transform is the identity) and the emitter at (10, 0, 0), the
azimuth pushed is −90 degrees, not 90 degrees. -/
theorem spatial_scenario_azimuth_sign :
    (spatialValues (some id) ⟨10, 0, 0⟩).1 = -90 ∧ ((-90 : ℝ) ≠ 90) := by
  refine ⟨?_, by norm_num⟩
  show toDegrees (atan2 (-(10 : ℝ)) (-(0 : ℝ))) = -90
  rw [show atan2 (-(10 : ℝ)) (-(0 : ℝ)) = -(Real.pi / 2) from by rw [atan2]; norm_num]
  rw [toDegrees]
  have hpi := Real.pi_ne_zero
  field_simp
  ring

/-- C8 (amended): listener at the origin facing −Z (identity inverse
transform), emitter at (10, 0, 0), `ref_distance = 1`,
`max_distance = 100`, inverse-distance model: azimuth = −90 degrees,
elevation = 0 degrees, distance = 10, and the attenuation gain computed
from that distance is 1/10. -/
theorem spatial_scenario_values :
    (spatialValues (some id) ⟨10, 0, 0⟩).1 = -90 ∧
    (spatialValues (some id) ⟨10, 0, 0⟩).2.1 = 0 ∧
    (spatialValues (some id) ⟨10, 0, 0⟩).2.2 = 10 ∧
    compute_attenuation ((spatialValues (some id) ⟨10, 0, 0⟩).2.2)
      AttenuationModel.InverseDistance 1 100 = 1 / 10 := by
  have haz : (spatialValues (some id) ⟨10, 0, 0⟩).1 = -90 := by
    show toDegrees (atan2 (-(10 : ℝ)) (-(0 : ℝ))) = -90
    rw [show atan2 (-(10 : ℝ)) (-(0 : ℝ)) = -(Real.pi / 2) from by rw [atan2]; norm_num]
    rw [toDegrees]
    have hpi := Real.pi_ne_zero
    field_simp
    ring
  have hel : (spatialValues (some id) ⟨10, 0, 0⟩).2.1 = 0 := by
    show toDegrees (atan2 0 (Real.sqrt ((10 : ℝ) * 10 + 0 * 0))) = 0
    have hs : Real.sqrt ((10 : ℝ) * 10 + 0 * 0) = 10 := by
      rw [show ((10 : ℝ) * 10 + 0 * 0) = 10 ^ 2 from by norm_num]
      exact Real.sqrt_sq (by norm_num)
    rw [hs, show atan2 (0 : ℝ) 10 = 0 from by rw [atan2]; norm_num, toDegrees]
    ring
  have hd : (spatialValues (some id) ⟨10, 0, 0⟩).2.2 = 10 := by
    show Vec3.len ⟨10, 0, 0⟩ = 10
    rw [Vec3.len, show ((10 : ℝ) * 10 + 0 * 0 + 0 * 0) = 10 ^ 2 from by norm_num]
    exact Real.sqrt_sq (by norm_num)
  refine ⟨haz, hel, hd, ?_⟩
  rw [hd, compute_attenuation, if_neg (by norm_num)]
  rw [show max ((10 : ℝ) - 1) 0 = 9 from by rw [max_eq_left (by norm_num)]; norm_num]
  norm_num
